import Mathlib

/-!
Shallow embedding of `src/extract_pdf_content.py`, a script that extracts
text from PDF files via the external library pdfplumber and writes a JSON
report.

The external pdfplumber library is modelled abstractly: a file's behaviour
under `pdfplumber.open` is an `OpenResult` (either a raised fault, or a
document given as a list of pages), and each page's `extract_text()` either
raises a fault or returns an optional string (`None` is modelled as
`Option.none`).  Python string truthiness (`if page_text:`) is: not `None`
and not the empty string.
-/

namespace ExtractPdfContent

/-- Behaviour of one page's `page.extract_text()` call: it either raises a
fault (exception with message) or returns `None` / a string. -/
inductive PageExtract where
  | fault (msg : String)
  | text (t : Option String)
deriving DecidableEq, Repr

/-- Abstract model of one page of a PDF document. -/
structure Page where
  extract : PageExtract
deriving DecidableEq, Repr

/-- Behaviour of `pdfplumber.open` on a file: either a raised fault or a
document, i.e. the list `pdf.pages`. -/
inductive OpenResult where
  | fault (msg : String)
  | doc (pages : List Page)
deriving DecidableEq, Repr

/-- The dict `{'page': page_num, 'content': page_text.strip()}` appended at
lines 20-23 of the source. -/
structure PageRecord where
  page : Nat
  content : String
deriving DecidableEq, Repr

/-- Return value of `extract_pdf_text`: a Python list of page dicts on
success, or the error-message string built at line 26. -/
inductive FileResult where
  | success (records : List PageRecord)
  | failure (msg : String)
deriving DecidableEq, Repr

/-- Python `str.strip()` on the extracted text (line 22): drop whitespace
from both ends.  Written over the character list so that it evaluates by
kernel reduction. -/
def pyStrip (s : String) : String :=
  String.mk (((s.data.dropWhile Char.isWhitespace).reverse.dropWhile
    Char.isWhitespace).reverse)

/-- The loop at lines 16-24 of the source: `text_content = []`, then
`for page_num, page in enumerate(pdf.pages, 1)` append
`{'page': page_num, 'content': page_text.strip()}` whenever `page_text`
is truthy.  A raised fault aborts the whole loop (the exception propagates
to the `except` at line 25), discarding everything gathered so far. -/
def extractPages : Nat → List Page → Except String (List PageRecord)
  | _, [] => Except.ok []
  | n, p :: ps =>
    match p.extract with
    | PageExtract.fault m => Except.error m
    | PageExtract.text none => extractPages (n + 1) ps
    | PageExtract.text (some s) =>
      if s = "" then extractPages (n + 1) ps
      else
        match extractPages (n + 1) ps with
        | Except.error m => Except.error m
        | Except.ok rest =>
          Except.ok ({ page := n, content := pyStrip s } :: rest)

/-- The f-string at line 26:
`f"Error extracting from {pdf_path}: {str(e)}"`. -/
def errMsg (pdf_path msg : String) : String :=
  "Error extracting from " ++ pdf_path ++ ": " ++ msg

/-- `extract_pdf_text` (lines 12-26): open the document, collect the page
records, and convert any raised fault into the error-message string. -/
def extract_pdf_text (pdf_path : String) (o : OpenResult) : FileResult :=
  match o with
  | OpenResult.fault m => FileResult.failure (errMsg pdf_path m)
  | OpenResult.doc pages =>
    match extractPages 1 pages with
    | Except.ok recs => FileResult.success recs
    | Except.error m => FileResult.failure (errMsg pdf_path m)

/-- The fault that the Python code would actually raise while processing a
file: the open fault if opening fails, otherwise the fault of the first
page (in document order) whose extraction raises. -/
def firstPageFault : List Page → Option String
  | [] => none
  | p :: ps =>
    match p.extract with
    | PageExtract.fault m => some m
    | PageExtract.text _ => firstPageFault ps

/-- First fault raised for a file, if any (open fault or first page fault). -/
def firstFault : OpenResult → Option String
  | OpenResult.fault m => some m
  | OpenResult.doc pages => firstPageFault pages

/-- Python slicing `s[:n]` on a string: the first `n` code points. -/
def pyTake (s : String) (n : Nat) : String :=
  String.mk (s.data.take n)

/-- The ternary at line 44 of the source:
`content[0]['content'][:200] + "..." if len(content[0]['content']) > 200
else content[0]['content']`. -/
def first_page_preview (content0 : String) : String :=
  if content0.length > 200 then pyTake content0 200 ++ "..." else content0

/-- Console lines printed for one file by the loop body at lines 36-48:
the `Processing:` line, then either the page count (and, when the list is
non-empty, the first-page preview) or the error line, then the blank
`print()`. -/
def fileConsoleLines (name : String) (content : FileResult) : List String :=
  ("Processing: " ++ name) ::
    (match content with
     | FileResult.success recs =>
       ("  - Pages: " ++ toString recs.length) ::
         (match recs with
          | [] => []
          | r :: _ => ["  - First page preview: " ++ first_page_preview r.content])
     | FileResult.failure m => ["  - Error: " ++ m]) ++ [""]

/-- The hardcoded input directory (line 30). -/
def base_path : String := "/Users/aldoruizluna/labspace/ec0249/reference/raw"

/-- Split a character list on a separator character (used to model
`pathlib` component structure). -/
def splitOnChar (sep : Char) : List Char → List (List Char)
  | [] => [[]]
  | c :: rest =>
    match splitOnChar sep rest with
    | [] => if c = sep then [[], [c]] else [[c]]
    | g :: gs =>
      if c = sep then [] :: g :: gs
      else (c :: g) :: gs

/-- Join path components with `/`. -/
def joinSlash : List String → String
  | [] => ""
  | [x] => x
  | x :: y :: xs => x ++ "/" ++ joinSlash (y :: xs)

/-- `Path.parent`: drop the last path component. -/
def parentPath (p : String) : String :=
  joinSlash (((splitOnChar (Char.ofNat 47) p.data).dropLast).map String.mk)

/-- The output path `base_path.parent / "pdf_content_analysis.json"`
(line 51). -/
def output_file : String :=
  parentPath base_path ++ "/" ++ "pdf_content_analysis.json"

/-- Python dict assignment `d[k] = v` on an insertion-ordered dict:
overwrite in place if the key exists, else append. -/
def dictInsert (d : List (String × FileResult)) (k : String) (v : FileResult) :
    List (String × FileResult) :=
  if k ∈ d.map Prod.fst then
    d.map (fun kv => if kv.1 = k then (k, v) else kv)
  else d ++ [(k, v)]

/-- The full path handed to `extract_pdf_text` for a globbed entry:
`base_path / name`. -/
def pathOf (name : String) : String := base_path ++ "/" ++ name

/-- The accumulation loop at lines 33-38: for each enumerated file, store
`extract_pdf_text(pdf_file)` under the key `pdf_file.name` in
`analysis_results`. -/
def processFiles :
    List (String × OpenResult) → List (String × FileResult) →
      List (String × FileResult)
  | [], acc => acc
  | e :: rest, acc =>
    processFiles rest (dictInsert acc e.1 (extract_pdf_text (pathOf e.1) e.2))

/-- All console lines of the per-file loop, in enumeration order. -/
def consoleOf (listing : List (String × OpenResult)) : List String :=
  listing.foldr
    (fun e acc => fileConsoleLines e.1 (extract_pdf_text (pathOf e.1) e.2) ++ acc)
    []

/-- One hexadecimal digit, lowercase (as produced by CPython's json
encoder). -/
def hexDigit (n : Nat) : Char :=
  if n < 10 then Char.ofNat (48 + n) else Char.ofNat (87 + n)

/-- Four-digit lowercase hex, as in a JSON `\uXXXX` escape. -/
def hex4 (n : Nat) : String :=
  String.mk [hexDigit (n / 4096 % 16), hexDigit (n / 256 % 16),
    hexDigit (n / 16 % 16), hexDigit (n % 16)]

/-- CPython's `json` string escaping with `ensure_ascii=False`
(`py_encode_basestring`): only `"`|`\`|control characters below 0x20 are
escaped; every other character — in particular every non-ASCII
character — is emitted literally. -/
def pyJsonEscapeChar (c : Char) : String :=
  if c = Char.ofNat 34 then "\\\""
  else if c = Char.ofNat 92 then "\\\\"
  else if c = Char.ofNat 10 then "\\n"
  else if c = Char.ofNat 9 then "\\t"
  else if c = Char.ofNat 13 then "\\r"
  else if c = Char.ofNat 8 then "\\b"
  else if c = Char.ofNat 12 then "\\f"
  else if c.toNat < 32 then "\\u" ++ hex4 c.toNat
  else String.singleton c

/-- Escape every character of a list in order. -/
def encodeChars : List Char → String
  | [] => ""
  | c :: cs => pyJsonEscapeChar c ++ encodeChars cs

/-- JSON encoding of a Python string with `ensure_ascii=False`. -/
def pyJsonEncodeStr (s : String) : String :=
  "\"" ++ encodeChars s.data ++ "\""

/-- An indentation prefix of `n` spaces (`indent=2` nesting). -/
def indentStr (n : Nat) : String :=
  String.mk (List.replicate n (Char.ofNat 32))

/-- `json.dump` rendering of one page dict at nesting level `level`,
with `indent=2`. -/
def encodePageRecord (level : Nat) (r : PageRecord) : String :=
  "\x7b\n" ++ indentStr (level + 2) ++ "\"page\": " ++ toString r.page ++ ",\n"
    ++ indentStr (level + 2) ++ "\"content\": " ++ pyJsonEncodeStr r.content
    ++ "\n" ++ indentStr level ++ "\x7d"

/-- `json.dump` rendering of one FileResult value at nesting level
`level`: a JSON array of page dicts on success, a JSON string on failure. -/
def encodeFileResult (level : Nat) : FileResult → String
  | FileResult.failure m => pyJsonEncodeStr m
  | FileResult.success [] => "[]"
  | FileResult.success (r :: rs) =>
    "[\n" ++ indentStr (level + 2) ++ encodePageRecord (level + 2) r
      ++ String.join (rs.map
        (fun x => ",\n" ++ indentStr (level + 2) ++ encodePageRecord (level + 2) x))
      ++ "\n" ++ indentStr level ++ "]"

/-- `json.dump(analysis_results, f, ensure_ascii=False, indent=2)`
(line 53): render the whole report object. -/
def serializeReport : List (String × FileResult) → String
  | [] => "\x7b\x7d"
  | kv :: rest =>
    "\x7b\n" ++ indentStr 2 ++ pyJsonEncodeStr kv.1 ++ ": "
      ++ encodeFileResult 2 kv.2
      ++ String.join (rest.map
        (fun e => ",\n" ++ indentStr 2 ++ pyJsonEncodeStr e.1 ++ ": "
          ++ encodeFileResult 2 e.2))
      ++ "\n\x7d"

/-- Observable outcome of one run of `analyze_pdf_files` (lines 28-56):
console output, the report mapping, the `json.dump` call (target path,
`ensure_ascii`/`indent` arguments, serialized bytes), and the return
value. -/
structure RunOutput where
  consoleLines : List String
  report : List (String × FileResult)
  outputPath : String
  dumpEnsureAscii : Bool
  dumpIndent : Nat
  serialized : String
  returned : List (String × FileResult)
deriving DecidableEq, Repr

/-- `analyze_pdf_files` (lines 28-56) as a function of the enumerated
directory listing: each listing entry is a file name paired with the
behaviour of the pdfplumber library on that file. -/
def analyze_pdf_files (listing : List (String × OpenResult)) : RunOutput :=
  let results := processFiles listing []
  { consoleLines := consoleOf listing
      ++ ["Detailed analysis saved to: " ++ output_file]
    report := results
    outputPath := output_file
    dumpEnsureAscii := false
    dumpIndent := 2
    serialized := serializeReport results
    returned := results }

/-! ### Helper lemmas -/

/-- A raised fault aborts the page loop: the result is the error of the
first faulting page. -/
theorem extractPages_fault (pages : List Page) (n : Nat) (m : String)
    (h : firstPageFault pages = some m) :
    extractPages n pages = Except.error m := by
  induction pages generalizing n with
  | nil => simp [firstPageFault] at h
  | cons p ps ih =>
    cases hp : p.extract with
    | fault m0 =>
      simp [firstPageFault, hp] at h
      subst h
      simp [extractPages, hp]
    | text t =>
      have h2 : firstPageFault ps = some m := by
        simpa [firstPageFault, hp] using h
      cases t with
      | none => simp [extractPages, hp, ih _ h2]
      | some s =>
        by_cases hs : s = "" <;> simp [extractPages, hp, hs, ih _ h2]

/-- Every record produced by the page loop comes from a page at some index
`i` of the page list, carries the page number `n + i`, and stores the
strip of that page's non-empty raw text. -/
theorem extractPages_ok_mem (pages : List Page) (n : Nat)
    (recs : List PageRecord) (h : extractPages n pages = Except.ok recs) :
    ∀ r ∈ recs, ∃ i p, pages[i]? = some p ∧ r.page = n + i ∧
      ∃ s, p.extract = PageExtract.text (some s) ∧ s ≠ "" ∧
        r.content = pyStrip s := by
  induction pages generalizing n recs with
  | nil =>
    simp [extractPages] at h
    subst h
    simp
  | cons p ps ih =>
    intro r hr
    cases hp : p.extract with
    | fault m => simp [extractPages, hp] at h
    | text t =>
      cases t with
      | none =>
        have h2 : extractPages (n + 1) ps = Except.ok recs := by
          simpa [extractPages, hp] using h
        obtain ⟨i, q, hq, hpage, s, hs1, hs2, hs3⟩ := ih (n + 1) recs h2 r hr
        exact ⟨i + 1, q, by simpa using hq, by omega, s, hs1, hs2, hs3⟩
      | some s =>
        by_cases hs : s = ""
        · have h2 : extractPages (n + 1) ps = Except.ok recs := by
            simpa [extractPages, hp, hs] using h
          obtain ⟨i, q, hq, hpage, s2, hs1, hs2, hs3⟩ := ih (n + 1) recs h2 r hr
          exact ⟨i + 1, q, by simpa using hq, by omega, s2, hs1, hs2, hs3⟩
        · cases hrec : extractPages (n + 1) ps with
          | error m => simp [extractPages, hp, hs, hrec] at h
          | ok rest =>
            have hrecs : { page := n, content := pyStrip s } :: rest = recs := by
              simpa [extractPages, hp, hs, hrec] using h
            subst hrecs
            rcases List.mem_cons.mp hr with hr | hr
            · subst hr
              exact ⟨0, p, by simp, by simp, s, hp, hs, rfl⟩
            · obtain ⟨i, q, hq, hpage, s2, hs1, hs2, hs3⟩ :=
                ih (n + 1) rest hrec r hr
              exact ⟨i + 1, q, by simpa using hq, by omega, s2, hs1, hs2, hs3⟩

/-- Page numbers produced by the loop starting at `n` are bounded below by
`n` and strictly increasing. -/
theorem extractPages_ok_sorted (pages : List Page) (n : Nat)
    (recs : List PageRecord) (h : extractPages n pages = Except.ok recs) :
    (∀ r ∈ recs, n ≤ r.page) ∧
      List.Pairwise (fun a b => a.page < b.page) recs := by
  induction pages generalizing n recs with
  | nil =>
    simp [extractPages] at h
    subst h
    simp
  | cons p ps ih =>
    cases hp : p.extract with
    | fault m => simp [extractPages, hp] at h
    | text t =>
      cases t with
      | none =>
        have h2 : extractPages (n + 1) ps = Except.ok recs := by
          simpa [extractPages, hp] using h
        obtain ⟨hb, hpw⟩ := ih (n + 1) recs h2
        exact ⟨fun r hr => le_trans (Nat.le_succ n) (hb r hr), hpw⟩
      | some s =>
        by_cases hs : s = ""
        · have h2 : extractPages (n + 1) ps = Except.ok recs := by
            simpa [extractPages, hp, hs] using h
          obtain ⟨hb, hpw⟩ := ih (n + 1) recs h2
          exact ⟨fun r hr => le_trans (Nat.le_succ n) (hb r hr), hpw⟩
        · cases hrec : extractPages (n + 1) ps with
          | error m => simp [extractPages, hp, hs, hrec] at h
          | ok rest =>
            have hrecs : { page := n, content := pyStrip s } :: rest = recs := by
              simpa [extractPages, hp, hs, hrec] using h
            subst hrecs
            obtain ⟨hb, hpw⟩ := ih (n + 1) rest hrec
            constructor
            · intro r hr
              rcases List.mem_cons.mp hr with hr | hr
              · subst hr; exact le_refl n
              · exact le_trans (Nat.le_succ n) (hb r hr)
            · exact List.Pairwise.cons
                (fun b hb2 => lt_of_lt_of_le (Nat.lt_succ_self n) (hb b hb2))
                hpw

/-- When every page yields `None` or the empty string, the loop produces
the empty list. -/
theorem extractPages_all_empty (pages : List Page) (n : Nat)
    (h : ∀ p ∈ pages, p.extract = PageExtract.text none ∨
      p.extract = PageExtract.text (some "")) :
    extractPages n pages = Except.ok [] := by
  induction pages generalizing n with
  | nil => rfl
  | cons p ps ih =>
    rcases h p (by simp) with hp | hp <;>
      simp [extractPages, hp, ih (n + 1) (fun q hq => h q (by simp [hq]))]

/-- A successful `extract_pdf_text` on an opened document means the page
loop succeeded with exactly those records. -/
theorem success_extractPages (path : String) (pages : List Page)
    (recs : List PageRecord)
    (h : extract_pdf_text path (OpenResult.doc pages) = FileResult.success recs) :
    extractPages 1 pages = Except.ok recs := by
  cases hrec : extractPages 1 pages with
  | ok l =>
    have hl : l = recs := by simpa [extract_pdf_text, hrec] using h
    rw [hl]
  | error m => simp [extract_pdf_text, hrec] at h

/-- Inserting a fresh key appends it at the end (Python dict semantics). -/
theorem dictInsert_fresh (d : List (String × FileResult)) (k : String)
    (v : FileResult) (h : k ∉ d.map Prod.fst) :
    dictInsert d k v = d ++ [(k, v)] := by
  simp [dictInsert, h]

/-- Keys of the accumulation loop: with globally distinct names, the final
dict's keys are the initial keys followed by the listing's names. -/
theorem processFiles_keys (l : List (String × OpenResult))
    (acc : List (String × FileResult))
    (h : (acc.map Prod.fst ++ l.map Prod.fst).Nodup) :
    (processFiles l acc).map Prod.fst = acc.map Prod.fst ++ l.map Prod.fst := by
  induction l generalizing acc with
  | nil => simp [processFiles]
  | cons e rest ih =>
    have hk : e.1 ∉ acc.map Prod.fst := by
      intro hmem
      rw [List.nodup_append] at h
      exact h.2.2 hmem (by simp)
    rw [processFiles, dictInsert_fresh _ _ _ hk]
    rw [ih (acc ++ [(e.1, extract_pdf_text (pathOf e.1) e.2)]) (by simpa using h)]
    simp

/-! ### Claim theorems -/

/-- C1: if any fault is raised while opening the document or extracting
any page, `extract_pdf_text` returns a single error-message string (the
`FileResult.failure` variant, never a list) which contains the file's
display name and the fault's textual description as literal segments, and
no gathered PageRecords appear in the result (no `FileResult.success` is
returned); the value stored in the report for that file is therefore a
string, never an array. -/
theorem fault_yields_error_string (base name : String) (o : OpenResult)
    (e : String) (h : firstFault o = some e) :
    extract_pdf_text (base ++ "/" ++ name) o =
      FileResult.failure
        (("Error extracting from " ++ base ++ "/") ++ (name ++ (": " ++ e))) ∧
    ∀ recs, extract_pdf_text (base ++ "/" ++ name) o ≠ FileResult.success recs := by
  have hmsg : errMsg (base ++ "/" ++ name) e =
      ("Error extracting from " ++ base ++ "/") ++ (name ++ (": " ++ e)) := by
    simp [errMsg, String.append_assoc]
  have hres : extract_pdf_text (base ++ "/" ++ name) o =
      FileResult.failure (errMsg (base ++ "/" ++ name) e) := by
    cases o with
    | fault m =>
      have hm : m = e := by simpa [firstFault] using h
      subst hm
      rfl
    | doc pages =>
      have h2 : firstPageFault pages = some e := by simpa [firstFault] using h
      simp [extract_pdf_text, extractPages_fault pages 1 e h2]
  constructor
  · rw [hres, hmsg]
  · intro recs hcon
    rw [hres] at hcon
    exact FileResult.noConfusion hcon

/-- C1 witness: a file whose open raises "boom". -/
theorem fault_yields_error_string_witness :
    extract_pdf_text ("/d" ++ "/" ++ "x.pdf") (OpenResult.fault "boom") =
      FileResult.failure
        (("Error extracting from " ++ "/d" ++ "/") ++
          ("x.pdf" ++ (": " ++ "boom"))) :=
  (fault_yields_error_string "/d" "x.pdf" (OpenResult.fault "boom") "boom"
    (by decide)).1

/-- C2 counterexample: a page whose raw extracted text is the single
space " " is truthy in Python, so it is kept, but its stored stripped
content is the empty string — the claim that stored content is non-empty
by construction is false. -/
theorem stored_content_can_be_empty :
    extract_pdf_text "doc.pdf"
        (OpenResult.doc [{ extract := PageExtract.text (some " ") }]) =
      FileResult.success [{ page := 1, content := "" }] := by decide

/-- C2 (amended): every PageRecord stored by `extract_pdf_text` has as
content the whitespace-strip of the page's raw extracted text, and that
raw text is non-empty; the stored (stripped) content itself can be empty
when the raw text is whitespace-only. -/
theorem stored_content_is_strip_of_nonempty_raw (path : String)
    (pages : List Page) (recs : List PageRecord)
    (h : extract_pdf_text path (OpenResult.doc pages) = FileResult.success recs) :
    ∀ r ∈ recs, ∃ (i : Nat) (p : Page) (s : String), pages[i]? = some p ∧
      p.extract = PageExtract.text (some s) ∧ s ≠ "" ∧
      r.content = pyStrip s := by
  intro r hr
  obtain ⟨i, p, hp, _, s, hs1, hs2, hs3⟩ :=
    extractPages_ok_mem pages 1 recs (success_extractPages path pages recs h) r hr
  exact ⟨i, p, s, hp, hs1, hs2, hs3⟩

/-- C2 witness: a one-page document with raw text " hi ". -/
theorem stored_content_is_strip_of_nonempty_raw_witness :
    ∃ (i : Nat) (p : Page) (s : String),
      ([{ extract := PageExtract.text (some " hi ") }] : List Page)[i]? = some p ∧
      p.extract = PageExtract.text (some s) ∧ s ≠ "" ∧
      ({ page := 1, content := "hi" } : PageRecord).content = pyStrip s :=
  stored_content_is_strip_of_nonempty_raw "d/a.pdf"
    [{ extract := PageExtract.text (some " hi ") }]
    [{ page := 1, content := "hi" }] (by decide)
    { page := 1, content := "hi" } (by decide)

/-- C3: for a success result, the printed preview of the first page's
content is the literal first 200 characters followed by "..." when the
content is strictly longer than 200 characters, and the full unmodified
content when it is 200 characters or fewer. -/
theorem preview_truncation (c : String) :
    (c.length > 200 → first_page_preview c = pyTake c 200 ++ "...") ∧
    (c.length ≤ 200 → first_page_preview c = c) := by
  constructor
  · intro h
    simp [first_page_preview, h]
  · intro h
    simp [first_page_preview, Nat.not_lt.mpr h]

/-- C3 witness: a 201-character content is truncated with the marker, a
200-character content is printed unmodified. -/
theorem preview_truncation_witness :
    first_page_preview (String.mk (List.replicate 201 (Char.ofNat 97))) =
      pyTake (String.mk (List.replicate 201 (Char.ofNat 97))) 200 ++ "..." ∧
    first_page_preview (String.mk (List.replicate 200 (Char.ofNat 97))) =
      String.mk (List.replicate 200 (Char.ofNat 97)) :=
  ⟨(preview_truncation (String.mk (List.replicate 201 (Char.ofNat 97)))).1
      (by set_option maxRecDepth 2000 in decide),
    (preview_truncation (String.mk (List.replicate 200 (Char.ofNat 97)))).2
      (by set_option maxRecDepth 2000 in decide)⟩

/-- C4: every PageRecord of a successful result has page number at least 1
and the page numbers are strictly increasing across the array. -/
theorem pages_positive_strictly_increasing (path : String) (o : OpenResult)
    (recs : List PageRecord)
    (h : extract_pdf_text path o = FileResult.success recs) :
    (∀ r ∈ recs, 1 ≤ r.page) ∧
      List.Pairwise (fun a b => a.page < b.page) recs := by
  cases o with
  | fault m => simp [extract_pdf_text] at h
  | doc pages =>
    exact extractPages_ok_sorted pages 1 recs
      (success_extractPages path pages recs h)

/-- C4 witness: a two-page document whose second page is empty. -/
theorem pages_positive_strictly_increasing_witness :
    1 ≤ ({ page := 1, content := "hi" } : PageRecord).page ∧
    List.Pairwise (fun a b : PageRecord => a.page < b.page)
      [{ page := 1, content := "hi" }] :=
  ⟨(pages_positive_strictly_increasing "d/a.pdf"
      (OpenResult.doc [{ extract := PageExtract.text (some "hi") },
        { extract := PageExtract.text none }])
      [{ page := 1, content := "hi" }] (by decide)).1
      { page := 1, content := "hi" } (by decide),
    (pages_positive_strictly_increasing "d/a.pdf"
      (OpenResult.doc [{ extract := PageExtract.text (some "hi") },
        { extract := PageExtract.text none }])
      [{ page := 1, content := "hi" }] (by decide)).2⟩

/-- C5: a page whose extraction yields empty or absent text contributes no
PageRecord: no record of the successful result carries that page's 1-based
number, so page numbers need not be contiguous. -/
theorem empty_page_contributes_no_record (path : String) (pages : List Page)
    (recs : List PageRecord) (i : Nat) (p : Page)
    (h : extract_pdf_text path (OpenResult.doc pages) = FileResult.success recs)
    (hp : pages[i]? = some p)
    (hempty : p.extract = PageExtract.text none ∨
      p.extract = PageExtract.text (some "")) :
    ∀ r ∈ recs, r.page ≠ i + 1 := by
  intro r hr hcontra
  obtain ⟨j, q, hq, hpage, s, hs1, hs2, _⟩ :=
    extractPages_ok_mem pages 1 recs (success_extractPages path pages recs h) r hr
  have hij : j = i := by omega
  subst hij
  rw [hp] at hq
  have hpq : p = q := Option.some.inj hq
  subst hpq
  rcases hempty with he | he
  · rw [he] at hs1
    have := PageExtract.text.inj hs1
    exact Option.noConfusion this
  · rw [he] at hs1
    have := Option.some.inj (PageExtract.text.inj hs1)
    exact hs2 this.symm

/-- C5 witness: in a document whose first page is empty, the record for
the second page (number 2) is not numbered 1. -/
theorem empty_page_contributes_no_record_witness :
    ({ page := 2, content := "hi" } : PageRecord).page ≠ 0 + 1 :=
  empty_page_contributes_no_record "d/a.pdf"
    [{ extract := PageExtract.text none },
      { extract := PageExtract.text (some "hi") }]
    [{ page := 2, content := "hi" }] 0 { extract := PageExtract.text none }
    (by decide) (by decide) (Or.inl rfl)
    { page := 2, content := "hi" } (by decide)

/-- C6: for an input directory containing only valid PDFs (every file
opens and extracts successfully; directory entries are distinct), the key
set of the resulting report equals the set of enumerated filenames, each
appearing exactly once, in enumeration order. -/
theorem report_keys_match_listing (listing : List (String × OpenResult))
    (hnd : (listing.map Prod.fst).Nodup)
    (_hvalid : ∀ e ∈ listing, ∃ recs,
      extract_pdf_text (pathOf e.1) e.2 = FileResult.success recs) :
    ((analyze_pdf_files listing).report).map Prod.fst = listing.map Prod.fst := by
  have hkeys := processFiles_keys listing [] (by simpa using hnd)
  simpa [analyze_pdf_files] using hkeys

/-- C6 witness: a directory with two valid PDFs. -/
theorem report_keys_match_listing_witness :
    ((analyze_pdf_files
        [("a.pdf", OpenResult.doc []), ("b.pdf", OpenResult.doc [])]).report).map
        Prod.fst =
      ([("a.pdf", OpenResult.doc []), ("b.pdf", OpenResult.doc [])] :
        List (String × OpenResult)).map Prod.fst :=
  report_keys_match_listing
    [("a.pdf", OpenResult.doc []), ("b.pdf", OpenResult.doc [])]
    (by decide)
    (by
      intro e he
      simp only [List.mem_cons, List.not_mem_nil, or_false] at he
      rcases he with rfl | rfl
      · exact ⟨[], rfl⟩
      · exact ⟨[], rfl⟩)

/-- C7: the report is serialized to the file `pdf_content_analysis.json`
in the parent of the input directory, with `ensure_ascii=False` (every
character at or above U+0080 is emitted literally, never as a numeric
escape) and a fixed indentation of 2, and `analyze_pdf_files` returns the
very mapping that was serialized. -/
theorem serialization_contract (listing : List (String × OpenResult)) :
    (analyze_pdf_files listing).outputPath =
      "/Users/aldoruizluna/labspace/ec0249/reference/pdf_content_analysis.json" ∧
    (analyze_pdf_files listing).dumpEnsureAscii = false ∧
    (analyze_pdf_files listing).dumpIndent = 2 ∧
    (analyze_pdf_files listing).returned = (analyze_pdf_files listing).report ∧
    (analyze_pdf_files listing).serialized =
      serializeReport ((analyze_pdf_files listing).report) ∧
    ∀ c : Char, 128 ≤ c.toNat → pyJsonEscapeChar c = String.singleton c := by
  refine ⟨?_, rfl, rfl, rfl, rfl, ?_⟩
  · have hpath : (analyze_pdf_files listing).outputPath = output_file := rfl
    rw [hpath]
    decide
  intro c hc
  have h34 : ¬c = Char.ofNat 34 := fun h => by
    subst h; exact absurd hc (by decide)
  have h92 : ¬c = Char.ofNat 92 := fun h => by
    subst h; exact absurd hc (by decide)
  have h10 : ¬c = Char.ofNat 10 := fun h => by
    subst h; exact absurd hc (by decide)
  have h9 : ¬c = Char.ofNat 9 := fun h => by
    subst h; exact absurd hc (by decide)
  have h13 : ¬c = Char.ofNat 13 := fun h => by
    subst h; exact absurd hc (by decide)
  have h8 : ¬c = Char.ofNat 8 := fun h => by
    subst h; exact absurd hc (by decide)
  have h12 : ¬c = Char.ofNat 12 := fun h => by
    subst h; exact absurd hc (by decide)
  have h32 : ¬c.toNat < 32 := by omega
  simp [pyJsonEscapeChar, h34, h92, h10, h9, h13, h8, h12, h32]

/-- C7 witness: the empty directory, and the non-ASCII character U+00E9. -/
theorem serialization_contract_witness :
    (analyze_pdf_files []).outputPath =
      "/Users/aldoruizluna/labspace/ec0249/reference/pdf_content_analysis.json" ∧
    pyJsonEscapeChar (Char.ofNat 233) = String.singleton (Char.ofNat 233) :=
  ⟨(serialization_contract []).1,
    (serialization_contract []).2.2.2.2.2 (Char.ofNat 233) (by decide)⟩

/-- C8: the pipeline is deterministic — two runs on the same unchanged
enumerated listing (same files, same library behaviour) produce
byte-for-byte identical serialized JSON and identical reports. -/
theorem run_deterministic (l1 l2 : List (String × OpenResult)) (h : l1 = l2) :
    (analyze_pdf_files l1).serialized = (analyze_pdf_files l2).serialized ∧
    (analyze_pdf_files l1).report = (analyze_pdf_files l2).report := by
  subst h
  exact ⟨rfl, rfl⟩

/-- C8 witness: two runs on the same one-file listing. -/
theorem run_deterministic_witness :
    (analyze_pdf_files [("a.pdf", OpenResult.doc [])]).serialized =
      (analyze_pdf_files [("a.pdf", OpenResult.doc [])]).serialized ∧
    (analyze_pdf_files [("a.pdf", OpenResult.doc [])]).report =
      (analyze_pdf_files [("a.pdf", OpenResult.doc [])]).report :=
  run_deterministic [("a.pdf", OpenResult.doc [])]
    [("a.pdf", OpenResult.doc [])] rfl

/-- C9: a file that opens successfully but has no page with non-empty
extracted text yields the empty list (serialized as the empty JSON array
"[]", not an error string); the console reports a page count of 0 and
prints no first-page preview line. -/
theorem all_empty_pages_give_empty_array (path name : String)
    (pages : List Page)
    (h : ∀ p ∈ pages, p.extract = PageExtract.text none ∨
      p.extract = PageExtract.text (some "")) :
    extract_pdf_text path (OpenResult.doc pages) = FileResult.success [] ∧
    fileConsoleLines name (extract_pdf_text path (OpenResult.doc pages)) =
      ["Processing: " ++ name, "  - Pages: 0", ""] ∧
    encodeFileResult 2 (extract_pdf_text path (OpenResult.doc pages)) = "[]" := by
  have hE : extractPages 1 pages = Except.ok [] := extractPages_all_empty pages 1 h
  have h1 : extract_pdf_text path (OpenResult.doc pages) = FileResult.success [] := by
    simp [extract_pdf_text, hE]
  refine ⟨h1, ?_, by rw [h1]; rfl⟩
  rw [h1]
  have hz : ("  - Pages: " ++ toString (0 : Nat)) = "  - Pages: 0" := by decide
  simp [fileConsoleLines, hz]

/-- C9 witness: a one-page document whose page extracts to None. -/
theorem all_empty_pages_give_empty_array_witness :
    extract_pdf_text "d/e.pdf"
        (OpenResult.doc [{ extract := PageExtract.text none }]) =
      FileResult.success [] ∧
    fileConsoleLines "e.pdf"
        (extract_pdf_text "d/e.pdf"
          (OpenResult.doc [{ extract := PageExtract.text none }])) =
      ["Processing: " ++ "e.pdf", "  - Pages: 0", ""] :=
  ⟨(all_empty_pages_give_empty_array "d/e.pdf" "e.pdf"
      [{ extract := PageExtract.text none }]
      (by intro p hp; simp only [List.mem_singleton] at hp; subst hp;
          exact Or.inl rfl)).1,
    (all_empty_pages_give_empty_array "d/e.pdf" "e.pdf"
      [{ extract := PageExtract.text none }]
      (by intro p hp; simp only [List.mem_singleton] at hp; subst hp;
          exact Or.inl rfl)).2.1⟩

/-- C10: every PageRecord's page number is the page's original 1-based
position in the document's page sequence (numbering happens before
skipping, so skipped empty pages leave gaps and later pages are not
renumbered). -/
theorem page_number_is_original_position (path : String) (pages : List Page)
    (recs : List PageRecord)
    (h : extract_pdf_text path (OpenResult.doc pages) = FileResult.success recs) :
    ∀ r ∈ recs, ∃ (i : Nat) (p : Page), pages[i]? = some p ∧ r.page = i + 1 ∧
      ∃ s, p.extract = PageExtract.text (some s) ∧ s ≠ "" := by
  intro r hr
  obtain ⟨i, p, hp, hpage, s, hs1, hs2, _⟩ :=
    extractPages_ok_mem pages 1 recs (success_extractPages path pages recs h) r hr
  exact ⟨i, p, hp, by omega, s, hs1, hs2⟩

/-- C10 witness: a document whose first page is empty; the second page's
record keeps number 2 (the original position), not 1. -/
theorem page_number_is_original_position_witness :
    ∃ (i : Nat) (p : Page),
      ([{ extract := PageExtract.text none },
        { extract := PageExtract.text (some "hi") }] : List Page)[i]? = some p ∧
      ({ page := 2, content := "hi" } : PageRecord).page = i + 1 ∧
      ∃ s, p.extract = PageExtract.text (some s) ∧ s ≠ "" :=
  page_number_is_original_position "d/a.pdf"
    [{ extract := PageExtract.text none },
      { extract := PageExtract.text (some "hi") }]
    [{ page := 2, content := "hi" }] (by decide)
    { page := 2, content := "hi" } (by decide)

end ExtractPdfContent
